import Mathlib

/-!
Shallow embedding of the Session Orchestrator of `src/server/server.js`
(mediasoup demo server): the worker pool with its round-robin cursor, the
room registry map, the serialized admission queue, the protoo signaling
ingress adapter, the broadcaster (Express) ingress adapter, and the status
reporter.

The out-of-scope collaborators (`lib/Room`, `lib/utils`) are not under
`src/`; where a claim depends on them they are modelled from the spec and
marked as such in their doc comments.
-/

set_option autoImplicit false

namespace MediaSoup

/-- A Room handle as produced by `Room.create`.  `serial` is the identity of
the constructed object (the global construction counter at creation time),
so two distinct constructions always yield distinct handles. -/
structure Room where
  serial : Nat
  roomId : String
  workerIdx : Nat
  consumerReplicas : Nat
  closed : Bool
deriving DecidableEq, Repr

/-- The module-level mutable state of `server.js`:
`rooms` (the `Map<roomId, Room>` registry, as an association list),
`numWorkers` (the size of `mediasoupWorkers`, fixed after startup),
`nextMediasoupWorkerIdx` (the round-robin rotation cursor),
`roomSerial` (how many Rooms have been constructed so far, giving each
construction its identity), and `queueSubmitted` (how many tasks have been
pushed onto the AwaitQueue). -/
structure ServerState where
  rooms : List (String × Room)
  numWorkers : Nat
  nextMediasoupWorkerIdx : Nat
  roomSerial : Nat
  queueSubmitted : Nat
deriving DecidableEq, Repr

/-- The fresh state right after startup: empty registry, cursor at 0. -/
def initState (numWorkers : Nat) : ServerState :=
  { rooms := [], numWorkers := numWorkers, nextMediasoupWorkerIdx := 0
    roomSerial := 0, queueSubmitted := 0 }

/-- `rooms.get(roomId)` on the registry map. -/
def mapGet (m : List (String × Room)) (k : String) : Option Room :=
  match m with
  | [] => none
  | p :: rest => if p.1 = k then some p.2 else mapGet rest k

/-- `rooms.set(roomId, room)`: replace the entry if the key is present,
otherwise append a fresh entry (JS `Map.set` semantics). -/
def mapSet (m : List (String × Room)) (k : String) (v : Room) :
    List (String × Room) :=
  match m with
  | [] => [(k, v)]
  | p :: rest => if p.1 = k then (k, v) :: rest else p :: mapSet rest k v

/-- `rooms.delete(roomId)`. -/
def mapDelete (m : List (String × Room)) (k : String) : List (String × Room) :=
  match m with
  | [] => []
  | p :: rest => if p.1 = k then mapDelete rest k else p :: mapDelete rest k

/-- `getMediasoupWorker()` (src/server/server.js:412-420): return the worker
at the rotation cursor (we identify a worker with its pool index), then
advance the cursor by one, wrapping to 0 when it reaches the pool size. -/
def getMediasoupWorker (s : ServerState) : Nat × ServerState :=
  let worker := s.nextMediasoupWorkerIdx
  if s.nextMediasoupWorkerIdx + 1 = s.numWorkers then
    (worker, { s with nextMediasoupWorkerIdx := 0 })
  else
    (worker, { s with nextMediasoupWorkerIdx := s.nextMediasoupWorkerIdx + 1 })

/-- Modelled from the spec: `Room.create({ mediasoupWorker, roomId,
consumerReplicas })` lives in `lib/Room.js`, which is not under `src/`.
Per §6 it is `create(worker, roomId, consumerReplicas) → Room | fails`;
the failure oracle `fail` says whether construction fails for a given
`roomId` (e.g. the media engine rejects router creation) and with which
error. -/
def Room.create (fail : String → Option String) (workerIdx : Nat)
    (roomId : String) (consumerReplicas : Nat) (serial : Nat) :
    Except String Room :=
  match fail roomId with
  | some e => .error e
  | none =>
      .ok { serial := serial, roomId := roomId, workerIdx := workerIdx
            consumerReplicas := consumerReplicas, closed := false }

/-- `getOrCreateRoom({ roomId, consumerReplicas })`
(src/server/server.js:425-443): look the room up in the registry; if absent,
draw a worker from the rotation cursor, construct a Room bound to it, store
it in the registry and register the close observer.  The cursor advance
happens before construction, so a failed construction still leaves the
cursor advanced (as in the source, where `getMediasoupWorker()` runs before
the `await Room.create(...)` that may throw). -/
def getOrCreateRoom (fail : String → Option String) (roomId : String)
    (consumerReplicas : Nat) (s : ServerState) :
    Except String Room × ServerState :=
  match mapGet s.rooms roomId with
  | some room => (.ok room, s)
  | none =>
      let (workerIdx, s1) := getMediasoupWorker s
      match Room.create fail workerIdx roomId consumerReplicas s1.roomSerial with
      | .error e => (.error e, s1)
      | .ok room =>
          (.ok room,
            { s1 with rooms := mapSet s1.rooms roomId room
                      roomSerial := s1.roomSerial + 1 })

/-- The close observer registered by `getOrCreateRoom`:
`room.on('close', () => rooms.delete(roomId))`. -/
def roomCloseHandler (roomId : String) (s : ServerState) : ServerState :=
  { s with rooms := mapDelete s.rooms roomId }

/-- The AwaitQueue's serialized execution of a sequence of room-resolving
tasks: each task `(roomId, consumerReplicas)` runs `getOrCreateRoom`, tasks
run strictly one at a time in submission order, and a failed task does not
stop later ones.  Returns each caller's result. -/
def runQueueTasks (fail : String → Option String)
    (tasks : List (String × Nat)) (s : ServerState) :
    List (Except String Room) × ServerState :=
  match tasks with
  | [] => ([], s)
  | t :: rest =>
      let (res, s1) := getOrCreateRoom fail t.1 t.2 s
      let (results, s2) := runQueueTasks fail rest s1
      (res :: results, s2)

/-- A creation oracle under which every Room construction succeeds. -/
def noFail : String → Option String := fun _ => none

/-! ### Signaling ingress adapter (protoo WebSocket server) -/

/-- Observable events of the `connectionrequest` handler, in the order they
happen: pushing a task onto the queue, `getOrCreateRoom` resolving inside
the queued task, `accept()`, `room.handleProtooConnection(...)`,
`reject(status, reason)` for malformed requests, and `reject(error)` from
the queue's `.catch`. -/
inductive ProtooEvent where
  | queuePush
  | roomResolved (serial : Nat)
  | accepted
  | handledConnection (peerId : String)
  | rejected (status : Nat) (reason : String)
  | rejectedError (e : String)
deriving DecidableEq, Repr

/-- The URL query of an inbound protoo connection request: each parameter is
`none` when absent. -/
structure ConnectionRequest where
  roomId : Option String
  peerId : Option String
  consumerReplicas : Option String
deriving DecidableEq, Repr

/-- JS truthiness of a possibly-absent query-string value: `undefined` and
the empty string are falsy. -/
def truthy : Option String → Bool
  | none => false
  | some s => s ≠ ""

/-- `Number(u.query['consumerReplicas'])` followed by the `isNaN` check
defaulting to 0: an absent or non-numeric value becomes 0. -/
def parseConsumerReplicas (v : Option String) : Nat :=
  match v with
  | none => 0
  | some s => (s.toNat?).getD 0

/-- The `connectionrequest` handler (src/server/server.js:363-406): reject
with 400 when `roomId` or `peerId` is falsy, otherwise push onto the queue
a task that resolves the room via `getOrCreateRoom`, then `accept()`s the
connection and hands it to the room; the `.catch` rejects with the task's
error.  Returns the emitted events in order together with the final state. -/
def protooConnectionRequest (fail : String → Option String)
    (req : ConnectionRequest) (s : ServerState) :
    List ProtooEvent × ServerState :=
  if !truthy req.roomId || !truthy req.peerId then
    ([.rejected 400 "Connection request without roomId and/or peerId"], s)
  else
    let roomId := req.roomId.getD ""
    let peerId := req.peerId.getD ""
    let consumerReplicas := parseConsumerReplicas req.consumerReplicas
    let s0 := { s with queueSubmitted := s.queueSubmitted + 1 }
    match getOrCreateRoom fail roomId consumerReplicas s0 with
    | (.error e, s1) => ([.queuePush, .rejectedError e], s1)
    | (.ok room, s1) =>
        ([.queuePush, .roomResolved room.serial, .accepted,
          .handledConnection peerId], s1)

/-! ### Broadcaster ingress adapter (Express app) -/

/-- The `expressApp.param('roomId', ...)` middleware
(src/server/server.js:170-185): for every API request carrying a `roomId`
path parameter, push onto the queue a task that resolves the room via
`getOrCreateRoom` with `consumerReplicas: 0` and caches it as `req.room`. -/
def broadcasterResolveRoom (fail : String → Option String) (roomId : String)
    (s : ServerState) : Except String Room × ServerState :=
  let s0 := { s with queueSubmitted := s.queueSubmitted + 1 }
  getOrCreateRoom fail roomId 0 s0

/-- A JS `Error` object as seen by the Express error handler: its `name`,
its `message`, and its `status` property (absent unless someone preset it;
JS `||` also treats a preset 0 as absent). -/
structure JsError where
  name : String
  message : String
  status : Option Nat
deriving DecidableEq, Repr

/-- JS `String(error)` for an `Error` object: `name` when the message is
empty, otherwise `name + ": " + message`. -/
def jsErrorString (e : JsError) : String :=
  if e.message = "" then e.name else e.name ++ ": " ++ e.message

/-- An HTTP response as produced by the error handler. -/
structure HttpResponse where
  status : Nat
  statusMessage : String
  body : String
deriving DecidableEq, Repr

/-- The Express error handler (src/server/server.js:309-325):
`error.status = error.status || (error.name === 'TypeError' ? 400 : 500)`,
then respond with that status, `error.message` as status message, and
`String(error)` as body. -/
def expressErrorHandler (error : JsError) : HttpResponse :=
  let status :=
    match error.status with
    | some st => if st ≠ 0 then st
                 else if error.name = "TypeError" then 400 else 500
    | none => if error.name = "TypeError" then 400 else 500
  { status := status, statusMessage := error.message
    body := jsErrorString error }

/-! ### Status reporter -/

/-- Modelled from the spec: `room.logStatus()` lives in `lib/Room.js`, which
is not under `src/`.  Per §4.5 it is purely observational and must tolerate
a closed Room without raising an error, skipping it silently; on a live Room
it emits that Room's status line (contents out of scope, represented by the
room id). -/
def Room.logStatus (r : Room) : Except String (Option String) :=
  if r.closed then .ok none else .ok (some r.roomId)

/-- One step of the reporter's iteration: a previous error aborts the
iteration, otherwise the room's `logStatus` runs and its line (if any) is
appended. -/
def logStatusStep (acc : Except String (List String)) (p : String × Room) :
    Except String (List String) :=
  match acc with
  | .error e => .error e
  | .ok logs =>
      match p.2.logStatus with
      | .error e => .error e
      | .ok none => .ok logs
      | .ok (some l) => .ok (logs ++ [l])

/-- The periodic status reporter (src/server/server.js:81-87): one interval
iteration over `rooms.values()`, invoking `logStatus` on each; an error
raised by any invocation would abort the iteration and propagate. -/
def logRoomsStatus (s : ServerState) : Except String (List String) :=
  s.rooms.foldl logStatusStep (.ok [])

/-! ### Worker startup (WebRtcServer listen ports) -/

/-- One entry of `webRtcServerOptions.listenInfos` in config.js. -/
structure ListenInfo where
  protocol : String
  ip : String
  port : Nat
deriving DecidableEq, Repr

/-- The shared `config.mediasoup.webRtcServerOptions` object. -/
structure WebRtcServerOptions where
  listenInfos : List ListenInfo
deriving DecidableEq, Repr

/-- Modelled from the spec: `utils.clone` lives in `lib/utils.js`, which is
not under `src/`.  It deep-copies its argument so that later mutation of the
copy leaves the original untouched; in a pure embedding a deep copy is the
value itself. -/
def utilsClone (o : WebRtcServerOptions) : WebRtcServerOptions := o

/-- The `runMediasoupWorkers` loop (src/server/server.js:93-153), restricted
to the WebRtcServer part: for each of `numWorkers` workers, clone the shared
config, increment every cloned listen port by
`portIncrement = mediasoupWorkers.length - 1` (the just-pushed worker's
index), and create that worker's WebRtcServer with the result.  Returns the
final shared config together with each worker's WebRtcServer options in pool
order. -/
def runMediasoupWorkers (config : WebRtcServerOptions) (numWorkers : Nat) :
    WebRtcServerOptions × List WebRtcServerOptions :=
  (List.range numWorkers).foldl
    (fun st _ =>
      let (config, workers) := st
      let webRtcServerOptions := utilsClone config
      let portIncrement := workers.length
      let opts : WebRtcServerOptions :=
        { listenInfos := webRtcServerOptions.listenInfos.map
            (fun li => { li with port := li.port + portIncrement }) }
      (config, workers ++ [opts]))
    (config, [])

/-! ### Registry map lemmas -/

theorem mapGet_mapSet_self (m : List (String × Room)) (k : String) (v : Room) :
    mapGet (mapSet m k v) k = some v := by
  induction m with
  | nil => simp [mapSet, mapGet]
  | cons p rest ih =>
      by_cases h : p.1 = k
      · simp [mapSet, mapGet, h]
      · simp [mapSet, mapGet, h, ih]

theorem mapGet_mapSet_ne (m : List (String × Room)) (k k' : String) (v : Room)
    (h : k' ≠ k) : mapGet (mapSet m k v) k' = mapGet m k' := by
  induction m with
  | nil => simp [mapSet, mapGet, Ne.symm h]
  | cons p rest ih =>
      by_cases hp : p.1 = k
      · simp [mapSet, mapGet, hp, Ne.symm h]
      · simp [mapSet, mapGet, hp, ih]

theorem mem_keys_mapSet (m : List (String × Room)) (k : String) (v : Room)
    (x : String) (hx : x ∈ (mapSet m k v).map Prod.fst) :
    x ∈ m.map Prod.fst ∨ x = k := by
  induction m with
  | nil => simpa [mapSet] using hx
  | cons p rest ih =>
      by_cases hp : p.1 = k
      · simp only [mapSet, hp, if_true, List.map_cons, List.mem_cons] at hx
        rcases hx with hx | hx
        · exact Or.inr hx
        · exact Or.inl (by simp [hx])
      · simp only [mapSet, hp, if_false, List.map_cons, List.mem_cons] at hx
        rcases hx with hx | hx
        · exact Or.inl (by simp [hx])
        · rcases ih hx with h | h
          · exact Or.inl (by simp [h])
          · exact Or.inr h

theorem mapSet_keys_nodup (m : List (String × Room)) (k : String) (v : Room)
    (h : (m.map Prod.fst).Nodup) : ((mapSet m k v).map Prod.fst).Nodup := by
  induction m with
  | nil => simp [mapSet]
  | cons p rest ih =>
      simp only [List.map_cons, List.nodup_cons] at h
      by_cases hp : p.1 = k
      · subst hp
        simpa [mapSet] using h
      · have hrw : mapSet (p :: rest) k v = p :: mapSet rest k v := by
          simp [mapSet, hp]
        rw [hrw, List.map_cons, List.nodup_cons]
        exact ⟨fun hmem => (mem_keys_mapSet rest k v p.1 hmem).elim h.1 hp,
          ih h.2⟩

theorem mapGet_mapDelete_self (m : List (String × Room)) (k : String) :
    mapGet (mapDelete m k) k = none := by
  induction m with
  | nil => simp [mapDelete, mapGet]
  | cons p rest ih =>
      by_cases hp : p.1 = k
      · simp [mapDelete, hp, ih]
      · simp [mapDelete, mapGet, hp, ih]

theorem mapGet_mem (m : List (String × Room)) (k : String) (v : Room)
    (h : mapGet m k = some v) : (k, v) ∈ m := by
  induction m with
  | nil => simp [mapGet] at h
  | cons p rest ih =>
      obtain ⟨a, b⟩ := p
      by_cases hp : a = k
      · simp only [mapGet, hp, if_true] at h
        obtain rfl : b = v := by simpa using h
        subst hp
        exact List.mem_cons_self _ _
      · simp only [mapGet, hp, if_false] at h
        exact List.mem_cons_of_mem _ (ih h)

/-! ### Worker-pool rotation lemmas -/

theorem getMediasoupWorker_fst (s : ServerState) :
    (getMediasoupWorker s).1 = s.nextMediasoupWorkerIdx := by
  unfold getMediasoupWorker
  split <;> rfl

theorem getMediasoupWorker_rooms (s : ServerState) :
    (getMediasoupWorker s).2.rooms = s.rooms := by
  unfold getMediasoupWorker
  split <;> rfl

theorem getMediasoupWorker_cursor (s : ServerState)
    (hc : s.nextMediasoupWorkerIdx < s.numWorkers) :
    (getMediasoupWorker s).2.nextMediasoupWorkerIdx =
      (s.nextMediasoupWorkerIdx + 1) % s.numWorkers := by
  by_cases h : s.nextMediasoupWorkerIdx + 1 = s.numWorkers
  · simp [getMediasoupWorker, h, Nat.mod_self]
  · have hlt : s.nextMediasoupWorkerIdx + 1 < s.numWorkers := by omega
    simp [getMediasoupWorker, h, Nat.mod_eq_of_lt hlt]

theorem getMediasoupWorker_cursor_lt (s : ServerState)
    (hc : s.nextMediasoupWorkerIdx < s.numWorkers) :
    (getMediasoupWorker s).2.nextMediasoupWorkerIdx < s.numWorkers := by
  by_cases h : s.nextMediasoupWorkerIdx + 1 = s.numWorkers
  · simp [getMediasoupWorker, h]
    omega
  · simp [getMediasoupWorker, h]
    omega

/-! ### `getOrCreateRoom` equational lemmas -/

/-- Join path: the room is already registered, so it is returned as is and
the whole server state is untouched. -/
theorem getOrCreateRoom_present (fail : String → Option String)
    (roomId : String) (cr : Nat) (s : ServerState) (room : Room)
    (h : mapGet s.rooms roomId = some room) :
    getOrCreateRoom fail roomId cr s = (.ok room, s) := by
  unfold getOrCreateRoom
  rw [h]

/-- The Room value built on a successful create path. -/
def freshRoom (roomId : String) (cr : Nat) (s : ServerState) : Room :=
  { serial := s.roomSerial, roomId := roomId
    workerIdx := s.nextMediasoupWorkerIdx, consumerReplicas := cr
    closed := false }

/-- Create path, construction succeeding: a fresh Room bound to the worker
at the rotation cursor is built, registered, and returned; the cursor
advances and the construction counter increments. -/
theorem getOrCreateRoom_absent (fail : String → Option String)
    (roomId : String) (cr : Nat) (s : ServerState)
    (h1 : mapGet s.rooms roomId = none) (h2 : fail roomId = none) :
    getOrCreateRoom fail roomId cr s =
      (.ok (freshRoom roomId cr s),
       { rooms := mapSet s.rooms roomId (freshRoom roomId cr s)
         numWorkers := s.numWorkers
         nextMediasoupWorkerIdx :=
           (getMediasoupWorker s).2.nextMediasoupWorkerIdx
         roomSerial := s.roomSerial + 1
         queueSubmitted := s.queueSubmitted }) := by
  unfold getOrCreateRoom getMediasoupWorker Room.create
  rw [h1, h2]
  by_cases h : s.nextMediasoupWorkerIdx + 1 = s.numWorkers <;>
    simp [h, freshRoom]

/-- Create path, construction failing: the error is returned, the registry
and construction counter are untouched, but the rotation cursor has already
advanced (as in the source, where `getMediasoupWorker()` runs before the
`await Room.create(...)` that throws). -/
theorem getOrCreateRoom_absent_fail (fail : String → Option String)
    (roomId : String) (cr : Nat) (s : ServerState) (e : String)
    (h1 : mapGet s.rooms roomId = none) (h2 : fail roomId = some e) :
    getOrCreateRoom fail roomId cr s = (.error e, (getMediasoupWorker s).2) := by
  unfold getOrCreateRoom Room.create
  rw [h1, h2]

/-- Once the room is registered, any further serialized tasks for the same
`roomId` all observe it via the map lookup and leave the state untouched. -/
theorem runQueueTasks_present (fail : String → Option String)
    (roomId : String) (room : Room) (l : List Nat) (s : ServerState)
    (h : mapGet s.rooms roomId = some room) :
    runQueueTasks fail (l.map (fun cr => (roomId, cr))) s =
      (l.map (fun _ => .ok room), s) := by
  induction l with
  | nil => rfl
  | cons cr rest ih =>
      simp only [List.map_cons, runQueueTasks,
        getOrCreateRoom_present fail roomId cr s room h, ih]

/-- Round-robin characterization of serialized creations: starting from any
state whose cursor is in range, running fresh, pairwise-distinct room ids
through the queue assigns the k-th created room the worker
`(cursor + k) % poolSize`, serial `roomSerial + k`. -/
theorem runQueueTasks_roundRobin (ids : List String) :
    ∀ (s : ServerState),
    (∀ id ∈ ids, mapGet s.rooms id = none) → ids.Nodup →
    s.nextMediasoupWorkerIdx < s.numWorkers →
    ∀ (k : Nat), ∀ hk : k < ids.length,
      ((runQueueTasks noFail (ids.map (fun id => (id, 0))) s).1)[k]? =
        some (Except.ok
          { serial := s.roomSerial + k, roomId := ids[k]
            workerIdx := (s.nextMediasoupWorkerIdx + k) % s.numWorkers
            consumerReplicas := 0, closed := false }) := by
  induction ids with
  | nil =>
      intro s _ _ _ k hk
      simp at hk
  | cons id rest ih =>
      intro s hfresh hnodup hc k hk
      have habs : mapGet s.rooms id = none := hfresh id (List.mem_cons_self _ _)
      have step := getOrCreateRoom_absent noFail id 0 s habs rfl
      cases k with
      | zero =>
          simp only [List.map_cons, runQueueTasks, step, List.getElem?_cons_zero,
            List.getElem_cons_zero]
          simp [freshRoom, Nat.mod_eq_of_lt hc]
      | succ j =>
          have hjd : j < rest.length := by
            simpa [Nat.succ_lt_succ_iff] using hk
          have hfresh' : ∀ id' ∈ rest,
              mapGet (mapSet s.rooms id (freshRoom id 0 s)) id' = none := by
            intro id' hid'
            have hne : id' ≠ id := by
              intro hcontr
              exact (List.nodup_cons.mp hnodup).1 (hcontr ▸ hid')
            rw [mapGet_mapSet_ne _ _ _ _ hne]
            exact hfresh id' (List.mem_cons_of_mem _ hid')
          have hc' : (getMediasoupWorker s).2.nextMediasoupWorkerIdx
              < s.numWorkers := getMediasoupWorker_cursor_lt s hc
          have hrest := ih
            { rooms := mapSet s.rooms id (freshRoom id 0 s)
              numWorkers := s.numWorkers
              nextMediasoupWorkerIdx :=
                (getMediasoupWorker s).2.nextMediasoupWorkerIdx
              roomSerial := s.roomSerial + 1
              queueSubmitted := s.queueSubmitted }
            hfresh' (List.nodup_cons.mp hnodup).2 hc' j hjd
          simp only [List.map_cons, runQueueTasks, step,
            List.getElem?_cons_succ]
          rw [hrest]
          simp only [Option.some.injEq, Except.ok.injEq, Room.mk.injEq,
            List.getElem_cons_succ, and_true, true_and]
          constructor
          · omega
          · rw [getMediasoupWorker_cursor s hc, Nat.mod_add_mod]
            congr 1
            omega

/-! ### Claim theorems -/

/-- C1: For every sequence of N concurrent `getOrCreateRoom` calls with the
same `roomId`, all submitted through the Admission Queue's serialized
execution, exactly one Room is constructed (the construction counter rises
by exactly one) and every caller receives the same Room handle; and the
Registry map holds at most one Room per identifier at all times (every
single `getOrCreateRoom` step preserves distinctness of the registry's
keys). -/
theorem admission_queue_single_creation
    (fail : String → Option String) (roomId : String) (replicas : List Nat)
    (s : ServerState) (habs : mapGet s.rooms roomId = none)
    (hok : fail roomId = none) (hne : replicas ≠ []) :
    (∃ room,
      (runQueueTasks fail (replicas.map (fun cr => (roomId, cr))) s).1 =
        replicas.map (fun _ => Except.ok room) ∧
      (runQueueTasks fail (replicas.map (fun cr => (roomId, cr))) s).2.roomSerial
        = s.roomSerial + 1 ∧
      mapGet
        (runQueueTasks fail (replicas.map (fun cr => (roomId, cr))) s).2.rooms
        roomId = some room ∧
      ((s.rooms.map Prod.fst).Nodup →
        ((runQueueTasks fail (replicas.map (fun cr => (roomId, cr))) s).2.rooms.map
          Prod.fst).Nodup)) ∧
    (∀ (f : String → Option String) (r : String) (c : Nat) (t : ServerState),
      (t.rooms.map Prod.fst).Nodup →
      ((getOrCreateRoom f r c t).2.rooms.map Prod.fst).Nodup) := by
  constructor
  · cases replicas with
    | nil => exact absurd rfl hne
    | cons cr rest =>
        have step := getOrCreateRoom_absent fail roomId cr s habs hok
        have hrun :
            runQueueTasks fail ((cr :: rest).map (fun cr => (roomId, cr))) s =
              (Except.ok (freshRoom roomId cr s) ::
                 rest.map (fun _ => Except.ok (freshRoom roomId cr s)),
               { rooms := mapSet s.rooms roomId (freshRoom roomId cr s)
                 numWorkers := s.numWorkers
                 nextMediasoupWorkerIdx :=
                   (getMediasoupWorker s).2.nextMediasoupWorkerIdx
                 roomSerial := s.roomSerial + 1
                 queueSubmitted := s.queueSubmitted }) := by
          simp only [List.map_cons, runQueueTasks, step]
          rw [runQueueTasks_present fail roomId (freshRoom roomId cr s) rest
            { rooms := mapSet s.rooms roomId (freshRoom roomId cr s)
              numWorkers := s.numWorkers
              nextMediasoupWorkerIdx :=
                (getMediasoupWorker s).2.nextMediasoupWorkerIdx
              roomSerial := s.roomSerial + 1
              queueSubmitted := s.queueSubmitted }
            (mapGet_mapSet_self _ _ _)]
        refine ⟨freshRoom roomId cr s, ?_, ?_, ?_, ?_⟩ <;> rw [hrun]
        · rfl
        · exact mapGet_mapSet_self _ _ _
        · exact fun h => mapSet_keys_nodup _ _ _ h
  · intro f r c t ht
    cases hm : mapGet t.rooms r with
    | some room =>
        rw [getOrCreateRoom_present f r c t room hm]
        exact ht
    | none =>
        cases hf : f r with
        | none =>
            rw [getOrCreateRoom_absent f r c t hm hf]
            exact mapSet_keys_nodup _ _ _ ht
        | some e =>
            rw [getOrCreateRoom_absent_fail f r c t e hm hf,
              getMediasoupWorker_rooms]
            exact ht

/-- Witness for C1: two racing calls for room "X" on a fresh two-worker
server. -/
theorem admission_queue_single_creation_witness :
    mapGet (initState 2).rooms "X" = none ∧ noFail "X" = none ∧
    ((∃ room,
      (runQueueTasks noFail ([1, 2].map (fun cr => ("X", cr))) (initState 2)).1
        = [1, 2].map (fun _ => Except.ok room) ∧
      (runQueueTasks noFail ([1, 2].map (fun cr => ("X", cr)))
        (initState 2)).2.roomSerial = (initState 2).roomSerial + 1 ∧
      mapGet (runQueueTasks noFail ([1, 2].map (fun cr => ("X", cr)))
        (initState 2)).2.rooms "X" = some room ∧
      (((initState 2).rooms.map Prod.fst).Nodup →
        ((runQueueTasks noFail ([1, 2].map (fun cr => ("X", cr)))
          (initState 2)).2.rooms.map Prod.fst).Nodup)) ∧
    (∀ (f : String → Option String) (r : String) (c : Nat) (t : ServerState),
      (t.rooms.map Prod.fst).Nodup →
      ((getOrCreateRoom f r c t).2.rooms.map Prod.fst).Nodup)) :=
  ⟨rfl, rfl,
    admission_queue_single_creation noFail "X" [1, 2] (initState 2) rfl rfl
      (by simp)⟩

/-- C2: Worker assignment is deterministic round-robin: the cursor step
keeps the cursor in `[0, P)` and hands out the worker at the cursor; with
pool size P, the k-th room created (counting from 0 in global creation
order from a fresh server) is assigned the worker at index `k mod P`; in
particular with pool size 2 and rooms "A", "B", "C" created in that order
the assignments are 0, 1, 0. -/
theorem worker_round_robin :
    (∀ t : ServerState, t.nextMediasoupWorkerIdx < t.numWorkers →
      (getMediasoupWorker t).1 = t.nextMediasoupWorkerIdx ∧
      (getMediasoupWorker t).2.nextMediasoupWorkerIdx < t.numWorkers) ∧
    (∀ (P : Nat) (ids : List String), 0 < P → ids.Nodup →
      ∀ (k : Nat), ∀ hk : k < ids.length,
        ((runQueueTasks noFail (ids.map (fun id => (id, 0)))
            (initState P)).1)[k]? =
          some (Except.ok
            { serial := k, roomId := ids[k], workerIdx := k % P
              consumerReplicas := 0, closed := false })) ∧
    ((runQueueTasks noFail [("A", 0), ("B", 0), ("C", 0)] (initState 2)).1.map
        (Except.map Room.workerIdx) =
      [Except.ok 0, Except.ok 1, Except.ok 0]) := by
  refine ⟨?_, ?_, ?_⟩
  · intro t hc
    exact ⟨getMediasoupWorker_fst t, getMediasoupWorker_cursor_lt t hc⟩
  · intro P ids hP hnodup k hk
    have h := runQueueTasks_roundRobin ids (initState P)
      (fun id _ => rfl) hnodup (by simpa [initState] using hP) k hk
    simpa [initState] using h
  · rfl

/-- Witness for C2: the third room ("C") created on a fresh two-worker
server is assigned worker `2 mod 2 = 0`. -/
theorem worker_round_robin_witness :
    ((runQueueTasks noFail (["A", "B", "C"].map (fun id => (id, 0)))
        (initState 2)).1)[2]? =
      some (Except.ok
        { serial := 2, roomId := "C", workerIdx := 0
          consumerReplicas := 0, closed := false }) := by
  have h := worker_round_robin.2.1 2 ["A", "B", "C"] (by decide) (by decide)
    2 (by decide)
  simpa using h

/-- C3: After a Room's close notification fires (the registered observer
deletes its id from the registry), the identifier is absent from the
Registry, so a subsequent `getOrCreateRoom` with the same `roomId`
constructs a fresh Room (distinct from the prior handle) bound to the
worker freshly drawn from the rotation cursor — which, as the concrete
two-worker scenario shows, need not be the prior room's worker. -/
theorem close_then_fresh_room (fail : String → Option String)
    (roomId : String) (cr : Nat) (s : ServerState) (r : Room)
    (hmem : mapGet s.rooms roomId = some r)
    (hser : ∀ p ∈ s.rooms, p.2.serial < s.roomSerial)
    (hok : fail roomId = none) :
    mapGet (roomCloseHandler roomId s).rooms roomId = none ∧
    (∃ room' s',
      getOrCreateRoom fail roomId cr (roomCloseHandler roomId s) =
        (.ok room', s') ∧
      room' ≠ r ∧
      room'.workerIdx = (getMediasoupWorker (roomCloseHandler roomId s)).1 ∧
      mapGet s'.rooms roomId = some room') ∧
    (∃ r0 r1 : Room,
      (getOrCreateRoom noFail "A" 0 (initState 2)).1 = .ok r0 ∧
      (getOrCreateRoom noFail "A" 0 (roomCloseHandler "A"
        (getOrCreateRoom noFail "A" 0 (initState 2)).2)).1 = .ok r1 ∧
      r0.workerIdx = 0 ∧ r1.workerIdx = 1 ∧ r0.workerIdx ≠ r1.workerIdx) := by
  have habs : mapGet (roomCloseHandler roomId s).rooms roomId = none :=
    mapGet_mapDelete_self _ _
  refine ⟨habs, ?_, ?_⟩
  · have step := getOrCreateRoom_absent fail roomId cr
      (roomCloseHandler roomId s) habs hok
    refine ⟨freshRoom roomId cr (roomCloseHandler roomId s), _, step, ?_, ?_, ?_⟩
    · intro hcontr
      have hr : r.serial < s.roomSerial := hser (roomId, r) (mapGet_mem _ _ _ hmem)
      have : (freshRoom roomId cr (roomCloseHandler roomId s)).serial =
          r.serial := by rw [hcontr]
      simp [freshRoom, roomCloseHandler] at this
      omega
    · rw [getMediasoupWorker_fst]
      rfl
    · exact mapGet_mapSet_self _ _ _
  · exact ⟨{ serial := 0, roomId := "A", workerIdx := 0
             consumerReplicas := 0, closed := false },
           { serial := 1, roomId := "A", workerIdx := 1
             consumerReplicas := 0, closed := false },
           rfl, rfl, rfl, rfl, by decide⟩

/-- Witness for C3: a two-worker server holding room "A" (serial 0,
worker 0); after the close notification, re-resolving "A" yields a fresh
room. -/
theorem close_then_fresh_room_witness :
    mapGet (roomCloseHandler "A"
      { rooms := [("A", { serial := 0, roomId := "A", workerIdx := 0
                          consumerReplicas := 0, closed := false })]
        numWorkers := 2, nextMediasoupWorkerIdx := 1, roomSerial := 1
        queueSubmitted := 0 }).rooms "A" = none ∧
    (∃ room' s',
      getOrCreateRoom noFail "A" 0 (roomCloseHandler "A"
        { rooms := [("A", { serial := 0, roomId := "A", workerIdx := 0
                            consumerReplicas := 0, closed := false })]
          numWorkers := 2, nextMediasoupWorkerIdx := 1, roomSerial := 1
          queueSubmitted := 0 }) = (.ok room', s') ∧
      room' ≠ { serial := 0, roomId := "A", workerIdx := 0
                consumerReplicas := 0, closed := false } ∧
      room'.workerIdx = (getMediasoupWorker (roomCloseHandler "A"
        { rooms := [("A", { serial := 0, roomId := "A", workerIdx := 0
                            consumerReplicas := 0, closed := false })]
          numWorkers := 2, nextMediasoupWorkerIdx := 1, roomSerial := 1
          queueSubmitted := 0 })).1 ∧
      mapGet s'.rooms "A" = some room') ∧
    (∃ r0 r1 : Room,
      (getOrCreateRoom noFail "A" 0 (initState 2)).1 = .ok r0 ∧
      (getOrCreateRoom noFail "A" 0 (roomCloseHandler "A"
        (getOrCreateRoom noFail "A" 0 (initState 2)).2)).1 = .ok r1 ∧
      r0.workerIdx = 0 ∧ r1.workerIdx = 1 ∧ r0.workerIdx ≠ r1.workerIdx) :=
  close_then_fresh_room noFail "A" 0
    { rooms := [("A", { serial := 0, roomId := "A", workerIdx := 0
                        consumerReplicas := 0, closed := false })]
      numWorkers := 2, nextMediasoupWorkerIdx := 1, roomSerial := 1
      queueSubmitted := 0 }
    { serial := 0, roomId := "A", workerIdx := 0
      consumerReplicas := 0, closed := false }
    rfl (by decide) rfl

/-- The `connectionrequest` handler takes exactly one of three shapes:
immediate 400 rejection on falsy parameters, rejection with the queued
task's error, or resolve–accept–handle in that order. -/
theorem protoo_events_cases (fail : String → Option String)
    (req : ConnectionRequest) (s : ServerState) :
    ((protooConnectionRequest fail req s).1 =
        [.rejected 400 "Connection request without roomId and/or peerId"] ∧
      (!truthy req.roomId || !truthy req.peerId) = true) ∨
    (∃ e, (protooConnectionRequest fail req s).1 =
        [.queuePush, .rejectedError e] ∧
      (getOrCreateRoom fail (req.roomId.getD "")
        (parseConsumerReplicas req.consumerReplicas)
        { s with queueSubmitted := s.queueSubmitted + 1 }).1 = .error e) ∨
    (∃ room, (protooConnectionRequest fail req s).1 =
        [.queuePush, .roomResolved room.serial, .accepted,
         .handledConnection (req.peerId.getD "")] ∧
      (getOrCreateRoom fail (req.roomId.getD "")
        (parseConsumerReplicas req.consumerReplicas)
        { s with queueSubmitted := s.queueSubmitted + 1 }).1 = .ok room) := by
  by_cases hg : (!truthy req.roomId || !truthy req.peerId) = true
  · left
    constructor
    · simp [protooConnectionRequest, hg]
    · exact hg
  · right
    rcases hres : getOrCreateRoom fail (req.roomId.getD "")
        (parseConsumerReplicas req.consumerReplicas)
        { s with queueSubmitted := s.queueSubmitted + 1 } with ⟨res, s1⟩
    cases res with
    | error e =>
        left
        refine ⟨e, ?_, rfl⟩
        simp [protooConnectionRequest, hg, hres]
    | ok room =>
        right
        refine ⟨room, ?_, rfl⟩
        simp [protooConnectionRequest, hg, hres]

/-- C4: The signaling adapter never accepts an inbound connection before
the Room is confirmed resolved: every `accept()` event is preceded by a
successful room resolution inside the queued task; a rejection excludes
acceptance; and when the queued task fails with a Room construction error,
the connection is rejected with exactly that error and never accepted. -/
theorem protoo_accept_after_resolve (fail : String → Option String)
    (req : ConnectionRequest) (s : ServerState) :
    (∀ i : Nat,
      ((protooConnectionRequest fail req s).1)[i]? = some .accepted →
      ∃ j n, j < i ∧
        ((protooConnectionRequest fail req s).1)[j]? =
          some (.roomResolved n)) ∧
    (∀ e, ProtooEvent.rejectedError e ∈ (protooConnectionRequest fail req s).1 →
      ProtooEvent.accepted ∉ (protooConnectionRequest fail req s).1) ∧
    (∀ e, truthy req.roomId → truthy req.peerId →
      (getOrCreateRoom fail (req.roomId.getD "")
        (parseConsumerReplicas req.consumerReplicas)
        { s with queueSubmitted := s.queueSubmitted + 1 }).1 = .error e →
      (protooConnectionRequest fail req s).1 =
        [.queuePush, .rejectedError e] ∧
      ProtooEvent.accepted ∉ (protooConnectionRequest fail req s).1) := by
  rcases protoo_events_cases fail req s with ⟨hcase, hg⟩ |
    ⟨e, hcase, herr⟩ | ⟨room, hcase, hok⟩
  · refine ⟨?_, ?_, ?_⟩
    · intro i hi
      rw [hcase] at hi
      rcases i with _ | i <;> simp at hi
    · intro e he
      rw [hcase] at he
      simp at he
    · intro e htr htp _
      rw [htr, htp] at hg
      simp at hg
  · refine ⟨?_, ?_, ?_⟩
    · intro i hi
      rw [hcase] at hi
      rcases i with _ | _ | i <;> simp at hi
    · intro e' _
      rw [hcase]
      simp
    · intro e' _ _ herr'
      rw [herr] at herr'
      injection herr' with h
      subst h
      exact ⟨hcase, by rw [hcase]; simp⟩
  · refine ⟨?_, ?_, ?_⟩
    · intro i hi
      rw [hcase] at hi
      rcases i with _ | _ | _ | _ | i
      · simp at hi
      · simp at hi
      · exact ⟨1, room.serial, by omega, by rw [hcase]; rfl⟩
      · simp at hi
      · simp at hi
    · intro e he
      rw [hcase] at he
      simp at he
    · intro e _ _ herr'
      rw [hok] at herr'
      simp at herr'

/-- Witness for C4: a well-formed request for room "r" by peer "p" on a
fresh one-worker server. -/
theorem protoo_accept_after_resolve_witness :
    (∀ i : Nat,
      ((protooConnectionRequest noFail
        { roomId := some "r", peerId := some "p", consumerReplicas := none }
        (initState 1)).1)[i]? = some .accepted →
      ∃ j n, j < i ∧
        ((protooConnectionRequest noFail
          { roomId := some "r", peerId := some "p", consumerReplicas := none }
          (initState 1)).1)[j]? = some (.roomResolved n)) ∧
    (∀ e, ProtooEvent.rejectedError e ∈ (protooConnectionRequest noFail
        { roomId := some "r", peerId := some "p", consumerReplicas := none }
        (initState 1)).1 →
      ProtooEvent.accepted ∉ (protooConnectionRequest noFail
        { roomId := some "r", peerId := some "p", consumerReplicas := none }
        (initState 1)).1) ∧
    (∀ e, truthy (some "r") → truthy (some "p") →
      (getOrCreateRoom noFail ((some "r").getD "")
        (parseConsumerReplicas none)
        { initState 1 with
            queueSubmitted := (initState 1).queueSubmitted + 1 }).1 =
          .error e →
      (protooConnectionRequest noFail
        { roomId := some "r", peerId := some "p", consumerReplicas := none }
        (initState 1)).1 = [.queuePush, .rejectedError e] ∧
      ProtooEvent.accepted ∉ (protooConnectionRequest noFail
        { roomId := some "r", peerId := some "p", consumerReplicas := none }
        (initState 1)).1) :=
  protoo_accept_after_resolve noFail
    { roomId := some "r", peerId := some "p", consumerReplicas := none }
    (initState 1)

/-- C5: A signaling connection whose request parameters lack `roomId` or
lack `peerId` is rejected with status 400 before any Room resolution: the
only event is the rejection, and the state — registry, rotation cursor and
admission queue alike — is returned untouched. -/
theorem reject_missing_params (fail : String → Option String)
    (req : ConnectionRequest) (s : ServerState)
    (h : truthy req.roomId = false ∨ truthy req.peerId = false) :
    protooConnectionRequest fail req s =
      ([.rejected 400 "Connection request without roomId and/or peerId"], s) ∧
    (protooConnectionRequest fail req s).2.rooms = s.rooms ∧
    (protooConnectionRequest fail req s).2.nextMediasoupWorkerIdx =
      s.nextMediasoupWorkerIdx ∧
    (protooConnectionRequest fail req s).2.queueSubmitted =
      s.queueSubmitted := by
  have hg : (!truthy req.roomId || !truthy req.peerId) = true := by
    rcases h with h | h <;> simp [h]
  have hmain : protooConnectionRequest fail req s =
      ([.rejected 400 "Connection request without roomId and/or peerId"], s) := by
    simp [protooConnectionRequest, hg]
  exact ⟨hmain, by rw [hmain], by rw [hmain], by rw [hmain]⟩

/-- Witness for C5: a request carrying a `peerId` but no `roomId`. -/
theorem reject_missing_params_witness :
    protooConnectionRequest noFail
      { roomId := none, peerId := some "p", consumerReplicas := none }
      (initState 2) =
      ([.rejected 400 "Connection request without roomId and/or peerId"],
       initState 2) ∧
    (protooConnectionRequest noFail
      { roomId := none, peerId := some "p", consumerReplicas := none }
      (initState 2)).2.rooms = (initState 2).rooms ∧
    (protooConnectionRequest noFail
      { roomId := none, peerId := some "p", consumerReplicas := none }
      (initState 2)).2.nextMediasoupWorkerIdx =
      (initState 2).nextMediasoupWorkerIdx ∧
    (protooConnectionRequest noFail
      { roomId := none, peerId := some "p", consumerReplicas := none }
      (initState 2)).2.queueSubmitted = (initState 2).queueSubmitted :=
  reject_missing_params noFail
    { roomId := none, peerId := some "p", consumerReplicas := none }
    (initState 2) (Or.inl rfl)

/-- C6: Every broadcaster HTTP request resolves its Room through the
Admission Queue with `consumerReplicas = 0`; on an unknown `roomId` the
resolution succeeds by creating the room — the exact creation side effect a
signaling access with the same `roomId` would have. -/
theorem broadcaster_creates_unknown_room (fail : String → Option String)
    (roomId : String) (s : ServerState)
    (habs : mapGet s.rooms roomId = none) (hok : fail roomId = none) :
    ∃ room s',
      broadcasterResolveRoom fail roomId s = (.ok room, s') ∧
      room.consumerReplicas = 0 ∧
      mapGet s'.rooms roomId = some room ∧
      s'.roomSerial = s.roomSerial + 1 ∧
      s'.queueSubmitted = s.queueSubmitted + 1 ∧
      broadcasterResolveRoom fail roomId s =
        getOrCreateRoom fail roomId 0
          { s with queueSubmitted := s.queueSubmitted + 1 } ∧
      (∀ peerId : String, roomId ≠ "" → peerId ≠ "" →
        (protooConnectionRequest fail
          { roomId := some roomId, peerId := some peerId
            consumerReplicas := none } s).2 = s') := by
  have habs0 : mapGet
      ({ s with queueSubmitted := s.queueSubmitted + 1 } : ServerState).rooms
      roomId = none := habs
  have step := getOrCreateRoom_absent fail roomId 0
    { s with queueSubmitted := s.queueSubmitted + 1 } habs0 hok
  refine ⟨freshRoom roomId 0 { s with queueSubmitted := s.queueSubmitted + 1 },
    _, step, rfl, mapGet_mapSet_self _ _ _, rfl, rfl, rfl, ?_⟩
  intro peerId hr hp
  have ht : truthy (some roomId) = true := by simp [truthy, hr]
  have htp : truthy (some peerId) = true := by simp [truthy, hp]
  simp [protooConnectionRequest, ht, htp, step, parseConsumerReplicas,
    Option.getD]

/-- Witness for C6: resolving unknown room "B" on a fresh one-worker
server. -/
theorem broadcaster_creates_unknown_room_witness :
    ∃ room s',
      broadcasterResolveRoom noFail "B" (initState 1) = (.ok room, s') ∧
      room.consumerReplicas = 0 ∧
      mapGet s'.rooms "B" = some room ∧
      s'.roomSerial = (initState 1).roomSerial + 1 ∧
      s'.queueSubmitted = (initState 1).queueSubmitted + 1 ∧
      broadcasterResolveRoom noFail "B" (initState 1) =
        getOrCreateRoom noFail "B" 0
          { initState 1 with
              queueSubmitted := (initState 1).queueSubmitted + 1 } ∧
      (∀ peerId : String, "B" ≠ "" → peerId ≠ "" →
        (protooConnectionRequest noFail
          { roomId := some "B", peerId := some peerId
            consumerReplicas := none } (initState 1)).2 = s') :=
  broadcaster_creates_unknown_room noFail "B" (initState 1) rfl rfl

/-- C7: For a delegated Room-operation error reaching the broadcaster HTTP
error handler — such errors carry no preset `status` — the response status
is 400 exactly when the error's name is `'TypeError'`, otherwise 500, and
the response body carries the error's textual description. -/
theorem express_error_mapping (e : JsError) (h : e.status = none) :
    ((expressErrorHandler e).status = 400 ↔ e.name = "TypeError") ∧
    (e.name ≠ "TypeError" → (expressErrorHandler e).status = 500) ∧
    (expressErrorHandler e).body = jsErrorString e ∧
    (expressErrorHandler e).statusMessage = e.message := by
  unfold expressErrorHandler
  rw [h]
  by_cases hn : e.name = "TypeError" <;> simp [hn]

/-- Witness for C7: a bare `TypeError` with no preset status maps to 400
with `String(error)` as body. -/
theorem express_error_mapping_witness :
    ((expressErrorHandler
        { name := "TypeError", message := "boom", status := none }).status = 400
      ↔ ("TypeError" : String) = "TypeError") ∧
    (("TypeError" : String) ≠ "TypeError" →
      (expressErrorHandler
        { name := "TypeError", message := "boom", status := none }).status
        = 500) ∧
    (expressErrorHandler
      { name := "TypeError", message := "boom", status := none }).body =
      jsErrorString { name := "TypeError", message := "boom", status := none } ∧
    (expressErrorHandler
      { name := "TypeError", message := "boom", status := none }).statusMessage
      = "boom" :=
  express_error_mapping
    { name := "TypeError", message := "boom", status := none } rfl

/-- C8: For a `roomId` already present in the Registry, `getOrCreateRoom`
returns the existing Room and performs no mutation at all — the returned
state is the input state, so no worker is drawn from the cursor, no Room is
constructed and the Registry is not modified — and the `consumerReplicas`
argument has no effect on the result. -/
theorem getOrCreate_existing_frame (fail : String → Option String)
    (roomId : String) (cr : Nat) (s : ServerState) (room : Room)
    (h : mapGet s.rooms roomId = some room) :
    getOrCreateRoom fail roomId cr s = (.ok room, s) ∧
    (∀ cr' : Nat, getOrCreateRoom fail roomId cr' s =
      getOrCreateRoom fail roomId cr s) := by
  refine ⟨getOrCreateRoom_present fail roomId cr s room h, ?_⟩
  intro cr'
  rw [getOrCreateRoom_present fail roomId cr s room h,
    getOrCreateRoom_present fail roomId cr' s room h]

/-- Witness for C8: a server already holding room "A" returns it unchanged
for any `consumerReplicas`. -/
theorem getOrCreate_existing_frame_witness :
    getOrCreateRoom noFail "A" 7
      { rooms := [("A", { serial := 0, roomId := "A", workerIdx := 0
                          consumerReplicas := 0, closed := false })]
        numWorkers := 2, nextMediasoupWorkerIdx := 1, roomSerial := 1
        queueSubmitted := 3 } =
      (.ok { serial := 0, roomId := "A", workerIdx := 0
             consumerReplicas := 0, closed := false },
       { rooms := [("A", { serial := 0, roomId := "A", workerIdx := 0
                           consumerReplicas := 0, closed := false })]
         numWorkers := 2, nextMediasoupWorkerIdx := 1, roomSerial := 1
         queueSubmitted := 3 }) ∧
    (∀ cr' : Nat, getOrCreateRoom noFail "A" cr'
      { rooms := [("A", { serial := 0, roomId := "A", workerIdx := 0
                          consumerReplicas := 0, closed := false })]
        numWorkers := 2, nextMediasoupWorkerIdx := 1, roomSerial := 1
        queueSubmitted := 3 } =
      getOrCreateRoom noFail "A" 7
        { rooms := [("A", { serial := 0, roomId := "A", workerIdx := 0
                            consumerReplicas := 0, closed := false })]
          numWorkers := 2, nextMediasoupWorkerIdx := 1, roomSerial := 1
          queueSubmitted := 3 }) :=
  getOrCreate_existing_frame noFail "A" 7
    { rooms := [("A", { serial := 0, roomId := "A", workerIdx := 0
                        consumerReplicas := 0, closed := false })]
      numWorkers := 2, nextMediasoupWorkerIdx := 1, roomSerial := 1
      queueSubmitted := 3 }
    { serial := 0, roomId := "A", workerIdx := 0
      consumerReplicas := 0, closed := false } rfl

/-- The reporter's fold, for any accumulated log prefix: it never errors
and appends exactly the non-closed rooms' status lines. -/
theorem logStatusStep_foldl (m : List (String × Room)) (logs : List String) :
    m.foldl logStatusStep (.ok logs) =
      .ok (logs ++ (m.filter (fun p => !p.2.closed)).map
        (fun p => p.2.roomId)) := by
  induction m generalizing logs with
  | nil => simp
  | cons p rest ih =>
      by_cases hc : p.2.closed
      · simp [logStatusStep, Room.logStatus, hc, ih]
      · simp [logStatusStep, Room.logStatus, hc, ih]

/-- C9: The Status Reporter's periodic iteration over the Rooms currently
in the Registry never raises an error, whatever mixture of live and closed
(mid-close-transition) Rooms the registry holds: every closed Room is
skipped silently and exactly the live Rooms are reported. -/
theorem status_reporter_skips_closed (s : ServerState) :
    logRoomsStatus s =
      .ok ((s.rooms.filter (fun p => !p.2.closed)).map (fun p => p.2.roomId)) := by
  simpa using logStatusStep_foldl s.rooms []

/-- The worker-startup loop in closed form: the shared config is returned
unchanged and the i-th worker's WebRtcServer options are the config's
listen infos with every port shifted by exactly i. -/
theorem runMediasoupWorkers_eq (cfg : WebRtcServerOptions) (n : Nat) :
    runMediasoupWorkers cfg n =
      (cfg, (List.range n).map (fun i =>
        { listenInfos := cfg.listenInfos.map
            (fun li => { li with port := li.port + i }) })) := by
  induction n with
  | zero => rfl
  | succ m ih =>
      unfold runMediasoupWorkers at ih ⊢
      rw [List.range_succ, List.foldl_append, ih]
      simp [utilsClone, List.range_succ]

/-- C10: For every worker index i in `[0, numWorkers)`, the worker's
WebRtcServer listen ports equal the configured base ports plus exactly i
(each worker's options being a deep clone of the shared configuration), and
the shared `config.mediasoup.webRtcServerOptions` object is never mutated,
so the increments do not accumulate across workers. -/
theorem webrtc_server_ports (cfg : WebRtcServerOptions) (numWorkers : Nat) :
    (runMediasoupWorkers cfg numWorkers).1 = cfg ∧
    (runMediasoupWorkers cfg numWorkers).2 =
      (List.range numWorkers).map (fun i =>
        { listenInfos := cfg.listenInfos.map
            (fun li => { li with port := li.port + i }) }) := by
  rw [runMediasoupWorkers_eq]
  exact ⟨rfl, rfl⟩

end MediaSoup
